import Mathlib

/-!
Verification development for the Option Strategy Simulator.

The program consists of a Black-Scholes pricing kernel
(`blackScholesCall`, `standardNormalCDF`, `erf` in `utils/blackScholes.js`)
and a scenario projector (`calculateProjections` inside `App.jsx`) that, for
a fixed ladder of day offsets, prices each option contract at the target
price and derives profit / ROI, a chart series, a grouped table and a
volatility-crush flag.

Embedding conventions:
* JavaScript numbers are modelled as exact rationals (`ℚ`); the decimal
  literals of the source become the corresponding exact rationals.
* The transcendental library functions `Math.exp`, `Math.log`, `Math.sqrt`
  are not exactly computable; they are abstracted as a parameter record
  `MathLib`.  Structural theorems hold for every instantiation; theorems
  that need an exact value of a library function at an anchor point take
  the corresponding fact as a hypothesis (e.g. `M.exp 0 = 1`, which holds
  for the real exponential and for IEEE `Math.exp` at `0`).  The concrete
  record `mathApprox` instantiates closed witnesses; it agrees with the
  real functions at the anchor points the proofs use.
* A JS value that may be a number or a string is modelled by `JsVal`.
* The optional `target_iv` field, which in the source is either the empty
  string `""` or a number entered by the user, is modelled as `Option ℚ`
  (`none` = empty string).  JavaScript truthiness of the field (`""`, `0`
  falsy; every other number truthy) is spelled out at each use site.
-/

namespace OptionSim

/-- Abstract interface for the transcendental parts of JavaScript `Math`
used by the pricing kernel.  See the embedding conventions above. -/
structure MathLib where
  exp : ℚ → ℚ
  log : ℚ → ℚ
  sqrt : ℚ → ℚ

/-- A concrete `MathLib` used only to instantiate closed witnesses of
`M`-generic theorems.  Its fields agree with the real functions at the
anchor points the proofs rely on (`exp 0 = 1`, `log 1 = 0`, `sqrt 1 = 1`). -/
def mathApprox : MathLib :=
  { exp := fun x => 1 + x
    log := fun x => x - 1
    sqrt := fun x => x }

/-- Error function approximation (`erf` in `utils/blackScholes.js`,
Abramowitz–Stegun formula 7.1.26): saves the sign of `x`, works on `|x|`,
and evaluates the degree-5 polynomial in `t = 1/(1+p·x)` times
`exp(−x²)`. -/
def erf (M : MathLib) (x : ℚ) : ℚ :=
  let sign : ℚ := if 0 ≤ x then 1 else -1
  let x := |x|
  let a1 : ℚ := 254829592 / 1000000000
  let a2 : ℚ := -284496736 / 1000000000
  let a3 : ℚ := 1421413741 / 1000000000
  let a4 : ℚ := -1453152027 / 1000000000
  let a5 : ℚ := 1061405429 / 1000000000
  let p : ℚ := 3275911 / 10000000
  let t : ℚ := 1 / (1 + p * x)
  let y : ℚ := 1 - (((((a5 * t + a4) * t) + a3) * t + a2) * t + a1) * t * M.exp (-(x * x))
  sign * y

/-- Standard normal CDF approximation (`standardNormalCDF` in
`utils/blackScholes.js`): `(1 + erf(x/√2)) / 2`. -/
def standardNormalCDF (M : MathLib) (x : ℚ) : ℚ :=
  (1 + erf M (x / M.sqrt 2)) / 2

/-- Black-Scholes call pricing (`blackScholesCall` in
`utils/blackScholes.js`).  For `T ≤ 0` it returns the intrinsic value
`max(0, S − K)`; otherwise the usual `S·Φ(d1) − K·e^(−rT)·Φ(d2)`. -/
def blackScholesCall (M : MathLib) (S K T r sigma : ℚ) : ℚ :=
  if T ≤ 0 then
    max 0 (S - K)
  else
    let d1 := (M.log (S / K) + (r + (1 / 2) * sigma ^ 2) * T) / (sigma * M.sqrt T)
    let d2 := d1 - sigma * M.sqrt T
    S * standardNormalCDF M d1 - K * M.exp (-(r * T)) * standardNormalCDF M d2

/-- An option contract row (`DEFAULT_OPTIONS` entries in `App.jsx`).
`target_iv = none` models the empty string `""`. -/
structure OptionContract where
  id : ℕ
  type : String
  strike : ℚ
  ask : ℚ
  iv : ℚ
  target_iv : Option ℚ
  delta : ℚ
  gamma : ℚ
  theta : ℚ
deriving DecidableEq

/-- The simulation configuration (`DEFAULT_CONFIG` shape in `App.jsx`). -/
structure MarketConfig where
  CURRENT_PRICE : ℚ
  TARGET_PRICE : ℚ
  RISK_FREE_RATE : ℚ
  DAYS_TO_EXPIRY : ℚ
deriving DecidableEq

/-- A JavaScript value that is either a number or a string. -/
inductive JsVal where
  | num (q : ℚ)
  | str (s : String)
deriving DecidableEq

/-- Whether a `JsVal` is a number. -/
def JsVal.isNum : JsVal → Bool
  | .num _ => true
  | .str _ => false

/-- One point of the chart series (`chartPoint` in `calculateProjections`):
`name` models the `Day ${day}` label (we record the day number), `price`
is the `price:` property, and `fields` are the per-contract properties in
insertion order, keyed by the composite of the contract's label and strike
(the source's template string `${opt.type} ($${opt.strike})` is modelled as
the pair `(type, strike)`). -/
structure ChartPoint where
  name : ℚ
  price : ℚ
  fields : List ((String × ℚ) × JsVal)
deriving DecidableEq

/-- One per-contract row of a grouped table entry (`dayResult.details`
element in `calculateProjections`); `roi` and `profit` hold the
`toFixed(2)` strings. -/
structure DetailRow where
  type : String
  strike : ℚ
  roi : String
  profit : String
deriving DecidableEq

/-- One grouped table entry (`dayResult` in `calculateProjections`);
`day` models the `Day ${day}` label (we record the day number). -/
structure DayResult where
  day : ℚ
  details : List DetailRow
deriving DecidableEq

/-- The comparator of `App.jsx` line 32, `(a, b) => a.strike - b.strike`,
as the ordering relation it induces. -/
def strikeLE (a b : OptionContract) : Prop := a.strike ≤ b.strike

instance : DecidableRel strikeLE := fun a b =>
  inferInstanceAs (Decidable (a.strike ≤ b.strike))

instance : IsTotal OptionContract strikeLE :=
  ⟨fun a b => le_total a.strike b.strike⟩

instance : IsTrans OptionContract strikeLE :=
  ⟨fun _ _ _ h h' => le_trans h h'⟩

/-- `sortedOptions` of `App.jsx` lines 31–35: a stable ascending sort of
the contracts by strike (JS `Array.prototype.sort` is stable; we embed it
as insertion sort, which is stable and produces the same result for the
same key order). -/
def sortedOptions (options : List OptionContract) : List OptionContract :=
  options.insertionSort strikeLE

/-- JS truthiness test plus crush comparison of `App.jsx` line 69:
`opt.target_iv && opt.target_iv < opt.iv - 0.1`.  The empty string
(`none`) and the number `0` are falsy. -/
def crushCond (o : OptionContract) : Bool :=
  match o.target_iv with
  | none => false
  | some v => if v = 0 then false else decide (v < o.iv - 1 / 10)

/-- The volatility fallback of `App.jsx` line 95:
`const targetIv = opt.target_iv || opt.iv`.  `||` returns `opt.iv`
whenever `opt.target_iv` is falsy, i.e. the empty string or `0`. -/
def effectiveIv (o : OptionContract) : ℚ :=
  match o.target_iv with
  | none => o.iv
  | some v => if v = 0 then o.iv else v

/-- The fixed scenario ladder of `App.jsx` line 73. -/
def scenarioDays : List ℚ :=
  [30, 60, 90, 120, 150, 180, 210, 240, 270, 300, 330, 360]

/-- The retained scenario offsets (`App.jsx` lines 73–74): the ladder
filtered to days `≤ DAYS_TO_EXPIRY`. -/
def scenarios (config : MarketConfig) : List ℚ :=
  scenarioDays.filter fun day => decide (day ≤ config.DAYS_TO_EXPIRY)

/-- `daysRemaining` of `App.jsx` line 78: `max(DAYS_TO_EXPIRY - day, 0)`. -/
def daysRemainingAt (config : MarketConfig) (day : ℚ) : ℚ :=
  max (config.DAYS_TO_EXPIRY - day) 0

/-- `yearsRemaining` of `App.jsx` line 79:
`max(daysRemaining / 365, 0.0001)`. -/
def yearsRemainingAt (config : MarketConfig) (day : ℚ) : ℚ :=
  max (daysRemainingAt config day / 365) (1 / 10000)

/-- `estPrice` of `App.jsx` lines 97–103: the pricing kernel applied to
the simulated (target) price, the contract's strike, the remaining years,
the risk-free rate, and the resolved volatility. -/
def estPriceAt (M : MathLib) (config : MarketConfig) (day : ℚ) (o : OptionContract) : ℚ :=
  blackScholesCall M config.TARGET_PRICE o.strike (yearsRemainingAt config day)
    config.RISK_FREE_RATE (effectiveIv o)

/-- `profit` of `App.jsx` line 106: `estPrice - cost` with `cost = opt.ask`. -/
def profitAt (M : MathLib) (config : MarketConfig) (day : ℚ) (o : OptionContract) : ℚ :=
  estPriceAt M config day o - o.ask

/-- `roi` of `App.jsx` line 107:
`cost > 0 ? (profit / cost) * 100 : 0`. -/
def roiAt (M : MathLib) (config : MarketConfig) (day : ℚ) (o : OptionContract) : ℚ :=
  if 0 < o.ask then profitAt M config day o / o.ask * 100 else 0

/-- JavaScript `Number.prototype.toFixed(2)` on an exact rational: the
sign comes from `q < 0`, the magnitude is `|q|` rounded to an integer
number of hundredths, ties picking the larger integer (half-up on the
magnitude), rendered with exactly two fraction digits. -/
def toFixed2 (q : ℚ) : String :=
  let m : ℕ := (Int.floor (|q| * 100 + 1 / 2)).toNat
  (if q < 0 then "-" else "") ++ toString (m / 100) ++ "." ++
    (if m % 100 < 10 then "0" else "") ++ toString (m % 100)

/-- The scenario projector, `calculateProjections` of `App.jsx`
lines 65–126, as a pure function: it returns the chart series, the
grouped table, and the volatility-crush flag (the values passed to
`setChartData`, `setGroupedResults`, `setIsIvCrush`).  The source builds
both output lists in a single `forEach` over the retained offsets; we
build them as two maps over the same offset list, which produces the same
two sequences. -/
def calculateProjections (M : MathLib) (config : MarketConfig)
    (options : List OptionContract) :
    List ChartPoint × List DayResult × Bool :=
  let sortedOpts := sortedOptions options
  let crushDetected := sortedOpts.any crushCond
  let scen := scenarios config
  let chartPoints : List ChartPoint := scen.map fun day =>
    { name := day
      price := config.TARGET_PRICE
      fields := sortedOpts.map fun opt =>
        ((opt.type, opt.strike), JsVal.str (toFixed2 (roiAt M config day opt))) }
  let groupedData : List DayResult := scen.map fun day =>
    { day := day
      details := sortedOpts.map fun opt =>
        { type := opt.type
          strike := opt.strike
          roi := toFixed2 (roiAt M config day opt)
          profit := toFixed2 (profitAt M config day opt) } }
  (chartPoints, groupedData, crushDetected)

/-- The names (day offsets) of the chart series are exactly the retained
scenario offsets. -/
theorem chart_names (M : MathLib) (config : MarketConfig) (opts : List OptionContract) :
    ((calculateProjections M config opts).1).map ChartPoint.name = scenarios config := by
  simp only [calculateProjections, List.map_map]
  exact List.map_id'' (fun _ => rfl) _

/-- The day labels of the grouped table are exactly the retained scenario
offsets. -/
theorem table_days (M : MathLib) (config : MarketConfig) (opts : List OptionContract) :
    ((calculateProjections M config opts).2.1).map DayResult.day = scenarios config := by
  simp only [calculateProjections, List.map_map]
  exact List.map_id'' (fun _ => rfl) _

/-- Membership in the fixed scenario ladder is exactly being a multiple of
30 between 30 and 360. -/
theorem mem_scenarioDays (d : ℚ) :
    d ∈ scenarioDays ↔ ∃ k : ℕ, 1 ≤ k ∧ k ≤ 12 ∧ d = 30 * k := by
  constructor
  · intro h
    simp only [scenarioDays, List.mem_cons, List.not_mem_nil, or_false] at h
    rcases h with rfl | rfl | rfl | rfl | rfl | rfl | rfl | rfl | rfl | rfl | rfl | rfl
    · exact ⟨1, by norm_num⟩
    · exact ⟨2, by norm_num⟩
    · exact ⟨3, by norm_num⟩
    · exact ⟨4, by norm_num⟩
    · exact ⟨5, by norm_num⟩
    · exact ⟨6, by norm_num⟩
    · exact ⟨7, by norm_num⟩
    · exact ⟨8, by norm_num⟩
    · exact ⟨9, by norm_num⟩
    · exact ⟨10, by norm_num⟩
    · exact ⟨11, by norm_num⟩
    · exact ⟨12, by norm_num⟩
  · rintro ⟨k, hk1, hk2, rfl⟩
    interval_cases k <;> norm_num [scenarioDays]

/-- Every entry of the scenario ladder is at least 30. -/
theorem scenarioDays_ge_30 : ∀ d ∈ scenarioDays, (30 : ℚ) ≤ d := by
  intro d hd
  simp only [scenarioDays, List.mem_cons, List.not_mem_nil, or_false] at hd
  rcases hd with rfl | rfl | rfl | rfl | rfl | rfl | rfl | rfl | rfl | rfl | rfl | rfl <;>
    norm_num

/-- C5: with `yearsToExpiry ≤ 0` the pricing primitive returns the
intrinsic value `max(0, spot − strike)`, bypassing the time-dependent
formula, for all positive spot and strike, any rate and volatility, and
any model of the transcendental library functions. -/
theorem C5_intrinsic_at_expiry (M : MathLib) (S K T r sigma : ℚ)
    (hS : 0 < S) (hK : 0 < K) (hT : T ≤ 0) :
    blackScholesCall M S K T r sigma = max 0 (S - K) := by
  unfold blackScholesCall
  rw [if_pos hT]

/-- Witness for C5 at spot 3, strike 2, time 0. -/
theorem C5_intrinsic_at_expiry_witness :
    blackScholesCall mathApprox 3 2 0 (45 / 1000) (1 / 2) = max 0 (3 - 2) :=
  C5_intrinsic_at_expiry mathApprox 3 2 0 (45 / 1000) (1 / 2)
    (by norm_num) (by norm_num) le_rfl

/-- C3: the retained scenario offsets are exactly the multiples of 30
from 30 through 360 that are at most `daysToExpiry`, in strictly
ascending order, identically in the chart series and the grouped table;
and when `daysToExpiry < 30` both output structures are empty sequences. -/
theorem C3_scenario_offsets (M : MathLib) (config : MarketConfig)
    (opts : List OptionContract) :
    (∀ d : ℚ, d ∈ ((calculateProjections M config opts).1).map ChartPoint.name ↔
        ((∃ k : ℕ, 1 ≤ k ∧ k ≤ 12 ∧ d = 30 * k) ∧ d ≤ config.DAYS_TO_EXPIRY))
    ∧ (((calculateProjections M config opts).1).map ChartPoint.name).Pairwise (· < ·)
    ∧ ((calculateProjections M config opts).2.1).map DayResult.day
        = ((calculateProjections M config opts).1).map ChartPoint.name
    ∧ (config.DAYS_TO_EXPIRY < 30 →
        (calculateProjections M config opts).1 = []
        ∧ (calculateProjections M config opts).2.1 = []) := by
  refine ⟨?_, ?_, ?_, ?_⟩
  · intro d
    rw [chart_names]
    simp only [scenarios, List.mem_filter, decide_eq_true_eq, mem_scenarioDays]
  · rw [chart_names]
    exact List.Pairwise.filter _ (by decide)
  · rw [chart_names, table_days]
  · intro hlt
    have hscen : scenarios config = [] := by
      rw [scenarios, List.filter_eq_nil_iff]
      intro d hd
      simp only [decide_eq_true_eq, not_le]
      exact lt_of_lt_of_le hlt (scenarioDays_ge_30 d hd)
    constructor
    · have := chart_names M config opts
      rw [hscen] at this
      exact List.map_eq_nil_iff.mp this
    · have := table_days M config opts
      rw [hscen] at this
      exact List.map_eq_nil_iff.mp this

/-- Witness for C3: with `daysToExpiry = 20` both outputs are empty, and
with `daysToExpiry = 100` the retained offsets are exactly 30, 60, 90. -/
theorem C3_scenario_offsets_witness :
    (calculateProjections mathApprox ⟨340, 360, 45 / 1000, 20⟩ []).1 = []
    ∧ (calculateProjections mathApprox ⟨340, 360, 45 / 1000, 20⟩ []).2.1 = []
    ∧ ((calculateProjections mathApprox ⟨340, 360, 45 / 1000, 100⟩ []).1).map
        ChartPoint.name = [30, 60, 90] := by
  refine ⟨?_, ?_, by decide⟩
  · exact ((C3_scenario_offsets mathApprox ⟨340, 360, 45 / 1000, 20⟩ []).2.2.2
      (by norm_num)).1
  · exact ((C3_scenario_offsets mathApprox ⟨340, 360, 45 / 1000, 20⟩ []).2.2.2
      (by norm_num)).2

/-- C4: the projector's ROI is 0 whenever the premium paid (`ask`) is 0,
and equals `(estimatedPrice − premiumPaid) / premiumPaid × 100` whenever
the premium paid is positive (total rational arithmetic: no NaN or
infinity can arise, the guard never divides by the zero premium). -/
theorem C4_roi_guard (M : MathLib) (config : MarketConfig) (day : ℚ)
    (o : OptionContract) :
    (o.ask = 0 → roiAt M config day o = 0)
    ∧ (0 < o.ask →
        roiAt M config day o = (estPriceAt M config day o - o.ask) / o.ask * 100) := by
  constructor
  · intro h
    simp [roiAt, h]
  · intro h
    simp [roiAt, profitAt, h]

/-- A contract with zero premium paid, used by the C4 witness. -/
def optZeroAsk : OptionContract :=
  ⟨1, "Zero Premium Call", 100, 0, 1 / 2, none, 0, 0, 0⟩

/-- A contract with positive premium paid, used by the C4 witness. -/
def optPosAsk : OptionContract :=
  ⟨2, "ATM Call", 340, 9877 / 100, 6737 / 10000, none, 6608 / 10000, 16 / 10000,
    -1288 / 10000⟩

/-- The default configuration of the source, used by several witnesses. -/
def cfgDefault : MarketConfig := ⟨340, 360, 45 / 1000, 365⟩

/-- Witness for C4 at a zero-premium and a positive-premium contract. -/
theorem C4_roi_guard_witness :
    roiAt mathApprox cfgDefault 30 optZeroAsk = 0
    ∧ roiAt mathApprox cfgDefault 30 optPosAsk =
        (estPriceAt mathApprox cfgDefault 30 optPosAsk - optPosAsk.ask) /
          optPosAsk.ask * 100 :=
  ⟨(C4_roi_guard mathApprox cfgDefault 30 optZeroAsk).1 rfl,
   (C4_roi_guard mathApprox cfgDefault 30 optPosAsk).2 (by norm_num [optPosAsk])⟩

/-- C10: every chart point carries a `price` field equal to
`config.targetPrice`, and the set of retained offsets (hence the presence
of those points) does not depend on the contract list, so the field is
present at every retained offset even for an empty contract list. -/
theorem C10_price_field (M : MathLib) (config : MarketConfig)
    (opts : List OptionContract) :
    (∀ p ∈ (calculateProjections M config opts).1, p.price = config.TARGET_PRICE)
    ∧ ((calculateProjections M config opts).1).map ChartPoint.name
        = ((calculateProjections M config ([] : List OptionContract)).1).map
            ChartPoint.name := by
  constructor
  · intro p hp
    simp only [calculateProjections, List.mem_map] at hp
    obtain ⟨d, _, rfl⟩ := hp
    rfl
  · rw [chart_names, chart_names]

/-- Witness for C10: with the default config restricted to 60 days and no
contracts, the chart has one point per retained offset, each carrying the
target price. -/
theorem C10_price_field_witness :
    (calculateProjections mathApprox ⟨340, 360, 45 / 1000, 60⟩
        ([] : List OptionContract)).1 = [⟨30, 360, []⟩, ⟨60, 360, []⟩]
    ∧ ChartPoint.price ⟨30, 360, []⟩ = 360 :=
  ⟨by decide,
   (C10_price_field mathApprox ⟨340, 360, 45 / 1000, 60⟩ []).1 ⟨30, 360, []⟩
     (by decide)⟩

/-- The crush flag returned by the projector is the `some`-scan of
`App.jsx` line 69 over the sorted contracts. -/
theorem crush_flag_eq (M : MathLib) (config : MarketConfig)
    (opts : List OptionContract) :
    (calculateProjections M config opts).2.2 = (sortedOptions opts).any crushCond :=
  rfl

/-- A contract whose target implied volatility is set to exactly 0, used
to separate "set to zero" from "absent". -/
def optTargetZero : OptionContract :=
  ⟨7, "Zero Target IV Call", 100, 10, 1 / 2, some 0, 0, 0, 0⟩

/-- C1 counterexample: a contract with `targetImpliedVolatility` set to
exactly 0 does NOT have 0 passed to the pricing primitive — the `||`
fallback of `App.jsx` line 95 treats the falsy 0 like an absent value and
uses `impliedVolatility` instead. -/
theorem C1_counterexample :
    optTargetZero.target_iv = some 0
    ∧ effectiveIv optTargetZero = optTargetZero.iv
    ∧ optTargetZero.iv ≠ 0 := by
  refine ⟨rfl, rfl, ?_⟩
  norm_num [optTargetZero]

/-- C1 amended: the volatility resolved for the pricing primitive is the
contract's `targetImpliedVolatility` whenever that field is set to a
nonzero value, and falls back to `impliedVolatility` when the field is
absent or set to exactly 0 (JavaScript `||` triggers on every falsy
value, so set-to-zero is treated like absent). -/
theorem C1_amended_vol_fallback (o : OptionContract) :
    (∀ v : ℚ, o.target_iv = some v → v ≠ 0 → effectiveIv o = v)
    ∧ ((o.target_iv = none ∨ o.target_iv = some 0) → effectiveIv o = o.iv) := by
  constructor
  · intro v hv hv0
    simp [effectiveIv, hv, hv0]
  · rintro (h | h) <;> simp [effectiveIv, h]

/-- Witness for the amended C1 at a set-to-zero and a set-to-nonzero
contract. -/
theorem C1_amended_vol_fallback_witness :
    effectiveIv optTargetZero = optTargetZero.iv
    ∧ effectiveIv ⟨8, "Set Target Call", 100, 10, 1 / 2, some (3 / 10), 0, 0, 0⟩
        = 3 / 10 :=
  ⟨(C1_amended_vol_fallback optTargetZero).2 (Or.inr rfl),
   (C1_amended_vol_fallback ⟨8, "Set Target Call", 100, 10, 1 / 2, some (3 / 10), 0, 0, 0⟩).1
     (3 / 10) rfl (by norm_num)⟩

/-- Unfolding of the per-contract crush test of `App.jsx` line 69. -/
theorem crushCond_eq_true (o : OptionContract) :
    crushCond o = true ↔
      ∃ v : ℚ, o.target_iv = some v ∧ v ≠ 0 ∧ v < o.iv - 1 / 10 := by
  unfold crushCond
  cases htv : o.target_iv with
  | none => simp
  | some v =>
    by_cases hv0 : v = 0
    · subst hv0
      simp
    · simp [hv0]

/-- C2: for contracts satisfying the data model (a set
`targetImpliedVolatility` is positive), the volatility-crush flag is true
iff at least one contract has `targetImpliedVolatility` set and below
`impliedVolatility − 0.10`. -/
theorem C2_crush_flag (M : MathLib) (config : MarketConfig)
    (opts : List OptionContract)
    (hvalid : ∀ o ∈ opts, ∀ v : ℚ, o.target_iv = some v → 0 < v) :
    ((calculateProjections M config opts).2.2 = true ↔
      ∃ o ∈ opts, ∃ v : ℚ, o.target_iv = some v ∧ v < o.iv - 1 / 10) := by
  rw [crush_flag_eq, List.any_eq_true]
  constructor
  · rintro ⟨o, ho, hc⟩
    obtain ⟨v, htv, _, hlt⟩ := (crushCond_eq_true o).mp hc
    exact ⟨o, (List.mem_insertionSort strikeLE).mp ho, v, htv, hlt⟩
  · rintro ⟨o, ho, v, hv, hlt⟩
    refine ⟨o, (List.mem_insertionSort strikeLE).mpr ho, ?_⟩
    exact (crushCond_eq_true o).mpr ⟨v, hv, ne_of_gt (hvalid o ho v hv), hlt⟩

/-- A contract exhibiting a volatility crush (0.60 → 0.45), used by the
C2 witness. -/
def optCrush : OptionContract :=
  ⟨4, "Crush Call", 100, 10, 6 / 10, some (45 / 100), 0, 0, 0⟩

/-- A contract without a volatility crush (0.60 → 0.55), used by the C2
witness. -/
def optNoCrush : OptionContract :=
  ⟨5, "No Crush Call", 100, 10, 6 / 10, some (55 / 100), 0, 0, 0⟩

/-- Witness for C2 on the spec's two examples: a 0.60 → 0.45 contract
raises the flag, a 0.60 → 0.55 contract does not. -/
theorem C2_crush_flag_witness :
    (calculateProjections mathApprox cfgDefault [optCrush]).2.2 = true
    ∧ (calculateProjections mathApprox cfgDefault [optNoCrush]).2.2 = false := by
  constructor
  · have hval : ∀ o ∈ [optCrush], ∀ v : ℚ, o.target_iv = some v → 0 < v := by
      intro o ho v hv
      rw [List.mem_singleton] at ho
      subst ho
      rw [show optCrush.target_iv = some (45 / 100) from rfl, Option.some_inj] at hv
      subst hv
      norm_num
    exact (C2_crush_flag mathApprox cfgDefault [optCrush] hval).mpr
      ⟨optCrush, List.mem_singleton.mpr rfl, 45 / 100, rfl, by norm_num [optCrush]⟩
  · rw [crush_flag_eq]
    rw [show sortedOptions [optNoCrush] = [optNoCrush] from rfl]
    simp only [List.any_cons, List.any_nil, Bool.or_false]
    rw [Bool.eq_false_iff]
    intro hc
    obtain ⟨v, htv, _, hlt⟩ := (crushCond_eq_true optNoCrush).mp hc
    rw [show optNoCrush.target_iv = some (55 / 100) from rfl, Option.some_inj] at htv
    subst htv
    rw [show optNoCrush.iv = 6 / 10 from rfl] at hlt
    norm_num at hlt

/-- The chart series is the map over the retained offsets of the per-day
chart point (definitional shape of `calculateProjections`). -/
theorem chart_eq (M : MathLib) (config : MarketConfig) (opts : List OptionContract) :
    (calculateProjections M config opts).1 = (scenarios config).map fun day =>
      { name := day
        price := config.TARGET_PRICE
        fields := (sortedOptions opts).map fun opt =>
          ((opt.type, opt.strike), JsVal.str (toFixed2 (roiAt M config day opt))) } :=
  rfl

/-- The grouped table is the map over the retained offsets of the per-day
record (definitional shape of `calculateProjections`). -/
theorem table_eq (M : MathLib) (config : MarketConfig) (opts : List OptionContract) :
    (calculateProjections M config opts).2.1 = (scenarios config).map fun day =>
      { day := day
        details := (sortedOptions opts).map fun opt =>
          { type := opt.type
            strike := opt.strike
            roi := toFixed2 (roiAt M config day opt)
            profit := toFixed2 (profitAt M config day opt) } } :=
  rfl

/-- Inserting a contract commutes with filtering by an exact strike
value: every element the insertion walks past has a strictly smaller
strike, hence a different strike. -/
theorem orderedInsert_filter_strike (a : OptionContract) (l : List OptionContract)
    (s : ℚ) :
    (l.orderedInsert strikeLE a).filter (fun o => decide (o.strike = s))
      = if a.strike = s
        then a :: l.filter (fun o => decide (o.strike = s))
        else l.filter (fun o => decide (o.strike = s)) := by
  induction l with
  | nil =>
    by_cases h : a.strike = s
    · simp [List.orderedInsert, h]
    · simp [List.orderedInsert, h]
  | cons b t ih =>
    simp only [List.orderedInsert]
    by_cases hab : strikeLE a b
    · rw [if_pos hab]
      by_cases h : a.strike = s
      · simp [List.filter_cons, h]
      · simp [List.filter_cons, h]
    · rw [if_neg hab]
      have hb : b.strike < a.strike := lt_of_not_le hab
      by_cases h : a.strike = s
      · have hbs : ¬(b.strike = s) := by
          rw [← h]
          exact ne_of_lt hb
        simp [List.filter_cons, hbs, ih, h]
      · simp [List.filter_cons, ih, h]

/-- The stable sort commutes with filtering by an exact strike value:
contracts of equal strike keep their original relative order. -/
theorem sortedOptions_filter_strike (l : List OptionContract) (s : ℚ) :
    (sortedOptions l).filter (fun o => decide (o.strike = s))
      = l.filter (fun o => decide (o.strike = s)) := by
  induction l with
  | nil => rfl
  | cons a t ih =>
    show ((t.insertionSort strikeLE).orderedInsert strikeLE a).filter _ = _
    rw [orderedInsert_filter_strike]
    by_cases h : a.strike = s
    · rw [if_pos h]
      rw [show (t.insertionSort strikeLE).filter (fun o => decide (o.strike = s))
            = t.filter (fun o => decide (o.strike = s)) from ih]
      simp [List.filter_cons, h]
    · rw [if_neg h]
      rw [show (t.insertionSort strikeLE).filter (fun o => decide (o.strike = s))
            = t.filter (fun o => decide (o.strike = s)) from ih]
      simp [List.filter_cons, h]

/-- C6: in every chart point and every grouped-table row the per-contract
entries follow the strike-sorted contract order; that order is ascending
in strike; the sort is stable (contracts of equal strike keep their
original relative order); and the projector's outputs depend on the input
list only through its sorted version. -/
theorem C6_strike_order (M : MathLib) (config : MarketConfig)
    (opts : List OptionContract) :
    (∀ p ∈ (calculateProjections M config opts).1,
        p.fields.map Prod.fst = (sortedOptions opts).map fun o => (o.type, o.strike))
    ∧ (∀ row ∈ (calculateProjections M config opts).2.1,
        row.details.map (fun d => (d.type, d.strike))
          = (sortedOptions opts).map fun o => (o.type, o.strike))
    ∧ ((sortedOptions opts).map OptionContract.strike).Pairwise (· ≤ ·)
    ∧ (∀ s : ℚ, (sortedOptions opts).filter (fun o => decide (o.strike = s))
        = opts.filter (fun o => decide (o.strike = s)))
    ∧ (∀ opts2 : List OptionContract, sortedOptions opts2 = sortedOptions opts →
        calculateProjections M config opts2 = calculateProjections M config opts) := by
  refine ⟨?_, ?_, ?_, ?_, ?_⟩
  · intro p hp
    rw [chart_eq] at hp
    simp only [List.mem_map] at hp
    obtain ⟨d, _, rfl⟩ := hp
    rw [List.map_map]
    rfl
  · intro row hrow
    rw [table_eq] at hrow
    simp only [List.mem_map] at hrow
    obtain ⟨d, _, rfl⟩ := hrow
    rw [List.map_map]
    rfl
  · rw [List.pairwise_map]
    exact List.sorted_insertionSort strikeLE opts
  · exact sortedOptions_filter_strike opts
  · intro opts2 h
    unfold calculateProjections
    rw [show sortedOptions opts2 = sortedOptions opts from h]

/-- C6 witness contract with strike 420 (integer-valued fields so the
closed statements evaluate). -/
def optS420 : OptionContract := ⟨1, "Deep OTM Call", 420, 72, 1, none, 1, 1, -1⟩

/-- C6 witness contract with strike 270. -/
def optS270 : OptionContract := ⟨2, "Deep ITM Call", 270, 127, 1, none, 1, 1, -1⟩

/-- C6 witness contract with strike 340. -/
def optS340 : OptionContract := ⟨3, "ATM Call", 340, 99, 1, none, 1, 1, -1⟩

/-- Witness for C6: strikes supplied as 420, 270, 340 sort to
270, 340, 420; filtering by strike 270 is unchanged by the sort; and a
reordering of the input that sorts identically yields identical outputs. -/
theorem C6_strike_order_witness :
    (sortedOptions [optS420, optS270, optS340]).filter
        (fun o => decide (o.strike = 270))
      = [optS420, optS270, optS340].filter (fun o => decide (o.strike = 270))
    ∧ calculateProjections mathApprox ⟨340, 360, 0, 60⟩ [optS270, optS340, optS420]
        = calculateProjections mathApprox ⟨340, 360, 0, 60⟩ [optS420, optS270, optS340]
    ∧ (sortedOptions [optS420, optS270, optS340]).map OptionContract.strike
        = [270, 340, 420] :=
  ⟨(C6_strike_order mathApprox ⟨340, 360, 0, 60⟩ [optS420, optS270, optS340]).2.2.2.1 270,
   (C6_strike_order mathApprox ⟨340, 360, 0, 60⟩ [optS420, optS270, optS340]).2.2.2.2
     [optS270, optS340, optS420] (by decide),
   by decide⟩

/-- At 0 the implemented error-function approximation evaluates to
exactly `1 − (a1+a2+a3+a4+a5) = 10⁻⁹` (the five Abramowitz–Stegun
constants sum to `0.999999999`), for every model whose `exp` is exact at
0 — as the real exponential and IEEE `Math.exp` are. -/
theorem erf_zero (M : MathLib) (h1 : M.exp 0 = 1) :
    erf M 0 = 1 / 1000000000 := by
  simp only [erf, abs_zero, mul_zero, zero_mul, neg_zero, h1]
  norm_num

/-- C7 counterexample: `erf(0) = 0` fails — the implementation returns
exactly `10⁻⁹` at 0 whenever the underlying `exp` is exact at 0 (as
`Math.exp` is), because the five approximation constants sum to
`0.999999999`, not 1. -/
theorem C7_counterexample :
    ¬(∀ M : MathLib, M.exp 0 = 1 → erf M 0 = 0) := by
  intro hclaim
  have h := hclaim mathApprox (by norm_num [mathApprox])
  rw [erf_zero mathApprox (by norm_num [mathApprox])] at h
  norm_num at h

/-- C7 amended: the approximation is odd away from 0 —
`erf(−x) = −erf(x)` for every `x ≠ 0` — but at 0 itself it returns
exactly `10⁻⁹` (not 0), and correspondingly `Φ(0) = 1/2 + 5·10⁻¹⁰`
(not exactly 1/2), whenever the underlying `exp` is exact at 0. -/
theorem C7_amended_erf_symmetry (M : MathLib) (x : ℚ) (hx : x ≠ 0)
    (h1 : M.exp 0 = 1) :
    erf M (-x) = -erf M x
    ∧ erf M 0 = 1 / 1000000000
    ∧ standardNormalCDF M 0 = 1 / 2 + 1 / 2000000000 := by
  refine ⟨?_, erf_zero M h1, ?_⟩
  · rcases lt_or_gt_of_ne hx with h | h
    · simp only [erf, abs_neg]
      rw [if_pos (by linarith : (0 : ℚ) ≤ -x), if_neg (by linarith : ¬(0 : ℚ) ≤ x)]
      ring
    · simp only [erf, abs_neg]
      rw [if_neg (by linarith : ¬(0 : ℚ) ≤ -x), if_pos (by linarith : (0 : ℚ) ≤ x)]
      ring
  · unfold standardNormalCDF
    rw [zero_div, erf_zero M h1]
    norm_num

/-- Witness for the amended C7 at `x = 1` and the concrete math model. -/
theorem C7_amended_erf_symmetry_witness :
    erf mathApprox (-1) = -erf mathApprox 1
    ∧ erf mathApprox 0 = 1 / 1000000000
    ∧ standardNormalCDF mathApprox 0 = 1 / 2 + 1 / 2000000000 :=
  C7_amended_erf_symmetry mathApprox 1 (by norm_num) (by norm_num [mathApprox])

/-- The default configuration restricted to 30 days to expiry, giving a
single retained offset; used by the C8 statements. -/
def cfg30 : MarketConfig := ⟨340, 360, 45 / 1000, 30⟩

/-- C8 counterexample: at a concrete input the single chart point has a
single per-contract field and its value is NOT numeric — the source
stores `roi.toFixed(2)`, which is a string. -/
theorem C8_counterexample :
    ((calculateProjections mathApprox cfg30 [optPosAsk]).1.map
        fun p => p.fields.map fun kv => kv.2.isNum) = [[false]] := by
  decide

/-- C8 amended: every chart point carries, for each contract in sorted
order, a field keyed by the contract's label and strike whose value is
the STRING rendering (`toFixed(2)`) of that contract's ROI rounded to two
decimal places — not a number. -/
theorem C8_amended_chart_fields (M : MathLib) (config : MarketConfig)
    (opts : List OptionContract) :
    ∀ p ∈ (calculateProjections M config opts).1,
      p.fields = (sortedOptions opts).map fun o =>
        ((o.type, o.strike), JsVal.str (toFixed2 (roiAt M config p.name o))) := by
  intro p hp
  rw [chart_eq] at hp
  simp only [List.mem_map] at hp
  obtain ⟨d, _, rfl⟩ := hp
  rfl

/-- The chart point produced for day 30 of `cfg30` with the single ATM
contract; used by the C8 witness. -/
def chartPointW : ChartPoint :=
  { name := 30
    price := 360
    fields := (sortedOptions [optPosAsk]).map fun o =>
      ((o.type, o.strike), JsVal.str (toFixed2 (roiAt mathApprox cfg30 30 o))) }

/-- Witness for the amended C8 at the concrete day-30 chart point. -/
theorem C8_amended_chart_fields_witness :
    chartPointW.fields = (sortedOptions [optPosAsk]).map fun o =>
      ((o.type, o.strike), JsVal.str (toFixed2 (roiAt mathApprox cfg30 chartPointW.name o))) :=
  C8_amended_chart_fields mathApprox cfg30 [optPosAsk] chartPointW
    (by rw [show (calculateProjections mathApprox cfg30 [optPosAsk]).1 = [chartPointW]
          from rfl]
        exact List.mem_singleton.mpr rfl)

end OptionSim
